import Mathlib

/-!
Shallow embedding of `redash/handlers/users.py` (user account lifecycle
handlers): create, invite-suppressed create, reset password, get, update,
disable and enable, together with the request/response data they act on.

External collaborators that are referenced by the handlers but whose code is
not part of this repository slice (`redash.models`, `redash.permissions`,
`redash.handlers.base`, `redash.authentication.account`, the
`disposable_email_domains` package, SQLAlchemy) are modelled from the spec;
each such definition carries a doc comment starting `Modelled from the spec:`.
The handler bodies themselves are translated line by line from
`src/redash/handlers/users.py`.
-/

set_option autoImplicit false

namespace Redash

/-- A JSON value as far as these handlers inspect one: a string (name, email,
password, old_password) or a list of numbers (groups). -/
inductive Value where
  | str (s : String)
  | nums (l : List Nat)
deriving DecidableEq, Repr

/-- The string payload of a value; non-string values coerce to `""` (the
handlers only ever read string-typed fields as strings). -/
def Value.getStr : Value → String
  | .str s => s
  | .nums _ => ""

/-- The list payload of a value; non-list values coerce to `[]`. -/
def Value.getNums : Value → List Nat
  | .nums l => l
  | .str _ => []

/-- A JSON object (the parsed request body): an association list from field
names to values, first binding wins, mirroring a Python dict's lookup. -/
abbrev Req : Type := List (String × Value)

/-- Dictionary lookup: `req[k]` as an `Option`. -/
def lookupKey (req : Req) (k : String) : Option Value :=
  (req.find? (fun p => p.1 == k)).map (fun p => p.2)

/-- `k in req` in Python. -/
def hasKey (req : Req) (k : String) : Bool :=
  (lookupKey req k).isSome

/-- `req[k]` where the caller has already checked presence. -/
def getVal (req : Req) (k : String) : Value :=
  (lookupKey req k).getD (.str "")

/-- `funcy.project(req, keys)`: the sub-dictionary of `req` on the listed
keys, in the order the key list gives them. -/
def project (req : Req) (keys : List String) : Req :=
  keys.filterMap (fun k => (lookupKey req k).map (fun v => (k, v)))

/-- `params.pop(k)`: the dictionary with the binding for `k` removed. -/
def popKey (ps : Req) (k : String) : Req :=
  ps.filter (fun p => !(p.1 == k))

/-- Python's `s.split(sep, 1)` on character lists: `some (before, after)`
splitting at the first occurrence of `sep`, `none` when `sep` is absent. -/
def splitOnce (sep : Char) : List Char → Option (List Char × List Char)
  | [] => none
  | c :: cs =>
    if c = sep then some ([], cs)
    else
      match splitOnce sep cs with
      | none => none
      | some (l, r) => some (c :: l, r)

/-- Python's `s.lower()`. -/
def lowerStr (s : String) : String :=
  ⟨s.data.map Char.toLower⟩

/-- Substring search on character lists, used for Python's
`needle in haystack` on strings. -/
def containsSubAux (needle : List Char) : List Char → Bool
  | [] => needle.isEmpty
  | c :: cs => needle.isPrefixOf (c :: cs) || containsSubAux needle cs

/-- Python's `needle in haystack` for strings. -/
def containsSub (needle hay : String) : Bool :=
  containsSubAux needle.data hay.data

/-- The persisted `User` row: the columns these handlers read or write. -/
structure User where
  id : Nat
  orgId : Nat
  name : String
  email : String
  passwordHash : String
  groupIds : List Nat
  isDisabled : Bool
  apiKey : String
deriving DecidableEq, Repr

/-- The public dictionary representation produced by `User.to_dict`. -/
structure UserDict where
  id : Nat
  name : String
  email : String
  groupIds : List Nat
  isDisabled : Bool
  apiKey : Option String
deriving DecidableEq, Repr

/-- Modelled from the spec: `models.User.to_dict(with_api_key=...)` returns
the public representation of the user, the secret `api_key` included exactly
when `with_api_key` is set ("api_key: secret token, visible only to the user
themself or an administrator/owner"). -/
def User.to_dict (u : User) (withApiKey : Bool) : UserDict :=
  { id := u.id, name := u.name, email := u.email, groupIds := u.groupIds,
    isDisabled := u.isDisabled,
    apiKey := if withApiKey then some u.apiKey else none }

/-- Modelled from the spec: `models.User.disable` moves the account to the
Disabled state of the `is_disabled` state machine. -/
def User.disable (u : User) : User :=
  { u with isDisabled := true }

/-- Modelled from the spec: `models.User.enable` moves the account to the
Active state of the `is_disabled` state machine. -/
def User.enable (u : User) : User :=
  { u with isDisabled := false }

/-- Modelled from the spec: the external Credential Hasher collaborator,
`hash(plaintext) -> opaque` and `verify(plaintext, opaque) -> bool`.
`User.verify_password` is `verify` against the stored hash and
`User.hash_password` stores `hash` of the plaintext. -/
structure Hasher where
  hash : String → String
  verify : String → String → Bool

/-- Modelled from the spec: the acting authenticated identity, with the two
capabilities these handlers consult (`admin`, `list_users`). -/
structure Actor where
  id : Nat
  isAdmin : Bool
  hasListUsers : Bool
deriving DecidableEq, Repr

/-- Modelled from the spec: `redash.permissions.is_admin_or_owner(target)`
— the actor holds `admin` or is the target themself. -/
def is_admin_or_owner (actor : Actor) (targetId : Nat) : Bool :=
  actor.isAdmin || actor.id == targetId

/-- Modelled from the spec: the permission behind
`require_permission_or_owner('list_users', target)` — the actor holds
`list_users` or is the target themself. -/
def permission_or_owner (actor : Actor) (targetId : Nat) : Bool :=
  actor.hasListUsers || actor.id == targetId

/-- Modelled from the spec: the organization context, read-only to this
core; it supplies the default group new users are seeded with. -/
structure Org where
  id : Nat
  defaultGroupId : Nat
deriving DecidableEq, Repr

/-- A structured failure surfaced to the caller: the HTTP status and message
passed to `abort`. -/
structure Failure where
  status : Nat
  message : String
deriving DecidableEq, Repr

/-- The outcome the storage layer reports for `db.session.commit()`:
success, or an `IntegrityError` carrying its driver message (the handlers
string-match `"email" in e.message` on it). -/
inductive CommitOutcome where
  | ok
  | integrityError (message : String)
deriving DecidableEq, Repr

/-- An audit event as passed to `record_event`; `updatedFields` is empty for
events that carry no `updated_fields` entry. -/
structure Event where
  action : String
  timestamp : Nat
  objectId : Nat
  objectType : String
  updatedFields : List String
deriving DecidableEq, Repr

/-- The persisted state a handler call can touch: the target user's stored
row and the audit trail. A handler returns the state unchanged whenever it
aborts, since nothing is committed and no event is recorded. -/
structure SessionState where
  user : User
  events : List Event
deriving DecidableEq, Repr

/-- Modelled from the spec: `invite_link_for_user` asks the external token
collaborator for an opaque single-use invitation link for the user. -/
def invite_link_for_user (u : User) : String :=
  "invite/" ++ u.email

/-- Modelled from the spec: `send_password_reset_email` generates a
single-use reset link for the user and delegates delivery, returning the
link. -/
def send_password_reset_email (u : User) : String :=
  "reset/" ++ u.email

/-- Modelled from the spec: `BaseResource.update_model(user, params)` applies
the patch to the user row field by field; keys that are not columns of the
row (such as a leftover `old_password`) change no column. -/
def applyField (u : User) (kv : String × Value) : User :=
  if kv.1 == "name" then { u with name := kv.2.getStr }
  else if kv.1 == "email" then { u with email := kv.2.getStr }
  else if kv.1 == "groups" then { u with groupIds := kv.2.getNums }
  else u

/-- `update_model` over a whole params dictionary. -/
def update_model (u : User) (ps : Req) : User :=
  ps.foldl applyField u

/-- The recognized mutable fields of an update request, in the order
`project` receives them. -/
def updateKeys : List String :=
  ["email", "name", "password", "old_password", "groups"]

/-- Lines 108-121 of `users.py` (the body of `UserResource.post` between
`project` and `update_model`): project the recognized fields, run the
password prerequisites, hash a new password and pop the credential pair,
and run the groups-permission check. Returns the in-memory user and the
params dictionary as they stand when control reaches `update_model`. -/
def updateChecks (hasher : Hasher) (actor : Actor) (user : User) (req : Req) :
    Except Failure (User × Req) :=
  let params := project req updateKeys
  if hasKey params "password" && !(hasKey params "old_password") then
    .error ⟨403, "Must provide current password to update password."⟩
  else if hasKey params "old_password" &&
      !(hasher.verify (getVal params "old_password").getStr user.passwordHash) then
    .error ⟨403, "Incorrect current password."⟩
  else
    let step :=
      if hasKey params "password" then
        ({ user with passwordHash := hasher.hash (getVal params "password").getStr },
         popKey (popKey params "password") "old_password")
      else (user, params)
    if hasKey step.2 "groups" && !actor.isAdmin then
      .error ⟨403, "Must be admin to change groups membership."⟩
    else .ok step

/-- `UserResource.post` (update user). The actor edits the stored target row
`st.user`; `commit` is the storage layer's answer to the commit; `now` is
`int(time.time())`. On any abort the session state is returned unchanged:
nothing was committed and no event recorded. -/
def UserResource.post (hasher : Hasher) (actor : Actor) (userId : Nat) (req : Req)
    (commit : CommitOutcome) (now : Nat) (st : SessionState) :
    Except Failure UserDict × SessionState :=
  if !(is_admin_or_owner actor userId) then
    (.error ⟨403, "Unauthorized"⟩, st)
  else
    match updateChecks hasher actor st.user req with
    | .error f => (.error f, st)
    | .ok (user, params) =>
      let user := update_model user params
      match commit with
      | .integrityError msg =>
        (.error ⟨400, if containsSub "email" msg then "Email already taken."
                      else "Error updating record"⟩, st)
      | .ok =>
        let ev : Event :=
          { action := "edit", timestamp := now, objectId := user.id,
            objectType := "user", updatedFields := params.map (fun p => p.1) }
        (.ok (user.to_dict (is_admin_or_owner actor userId)),
         { user := user, events := st.events ++ [ev] })

/-- `UserResource.get`: permission-gated read of the target row. -/
def UserResource.get (actor : Actor) (userId : Nat) (user : User) :
    Except Failure UserDict :=
  if !(permission_or_owner actor userId) then .error ⟨403, "Unauthorized"⟩
  else .ok (user.to_dict (is_admin_or_owner actor userId))

/-- The body returned by `UserResetPasswordResource.post` on success. -/
structure ResetResponse where
  resetLink : String
deriving DecidableEq, Repr

/-- `UserResetPasswordResource.post`: admin-only; a disabled target is
answered with 404, otherwise a reset link is generated and returned. -/
def UserResetPasswordResource.post (actor : Actor) (user : User) :
    Except Failure ResetResponse :=
  if !actor.isAdmin then .error ⟨403, "Unauthorized"⟩
  else if user.isDisabled then .error ⟨404, "Not found"⟩
  else .ok ⟨send_password_reset_email user⟩

/-- `UserDisableResource.post` (disable): admin-only; an admin disabling
their own row is aborted with 400 before any change; otherwise the row is
disabled and committed. No audit event is recorded by this handler. -/
def UserDisableResource.post (actor : Actor) (userId : Nat) (st : SessionState) :
    Except Failure UserDict × SessionState :=
  if !actor.isAdmin then (.error ⟨403, "Unauthorized"⟩, st)
  else if st.user.id == actor.id then
    (.error ⟨400, "You cannot disable your own account. Please ask another admin to do this for you."⟩, st)
  else
    let user := st.user.disable
    (.ok (user.to_dict (is_admin_or_owner actor userId)),
     { user := user, events := st.events })

/-- `UserDisableResource.delete` (enable): admin-only; unconditionally
enables the row and commits. No audit event is recorded by this handler. -/
def UserDisableResource.delete (actor : Actor) (userId : Nat) (st : SessionState) :
    Except Failure UserDict × SessionState :=
  if !actor.isAdmin then (.error ⟨403, "Unauthorized"⟩, st)
  else
    let user := st.user.enable
    (.ok (user.to_dict (is_admin_or_owner actor userId)),
     { user := user, events := st.events })

/-- The body returned by `UserListResource.post` on success: the created
user's dictionary with the invite link attached. -/
structure CreateResponse where
  user : UserDict
  inviteLink : String
deriving DecidableEq, Repr

/-- `UserListResource.post` (create user). `blacklist` is the
disposable-domain denylist (modelled from the spec: an externally refreshed
set of lowercase domains, checked by membership); `newId` is the row id the
store assigns at insert; `noInvite` is the presence of the `no_invite`
query argument. Returns the response, the row the insert persisted (if
any), the audit events recorded, and whether an invite email delivery was
delegated to the notifier (`invite_user` sends one, the `no_invite` branch
only computes the link).

Line 33, `name, domain = req['email'].split('@', 1)`, unpacks the result of
a maxsplit-1 split: an email without `@` makes the unpacking raise an
uncaught `ValueError`, which surfaces as a generic 500, modelled as
`Failure 500 "ValueError"`; an email with several `@` splits at the first
one. `abort(500)` with no message is modelled as `Failure 500 ""`. -/
def UserListResource.post (blacklist : List String) (actor : Actor) (req : Req)
    (noInvite : Bool) (commit : CommitOutcome) (org : Org) (newId : Nat) (now : Nat) :
    Except Failure CreateResponse × Option User × List Event × Bool :=
  if !actor.isAdmin then (.error ⟨403, "Unauthorized"⟩, none, [], false)
  else if !(hasKey req "name" && hasKey req "email") then
    (.error ⟨400, "Missing required fields"⟩, none, [], false)
  else
    match splitOnce '@' (getVal req "email").getStr.data with
    | none => (.error ⟨500, "ValueError"⟩, none, [], false)
    | some (_, domainChars) =>
      let domain := lowerStr ⟨domainChars⟩
      if blacklist.contains domain || domain == "qq.com" then
        (.error ⟨400, "Bad email address."⟩, none, [], false)
      else
        let user : User :=
          { id := newId, orgId := org.id, name := (getVal req "name").getStr,
            email := (getVal req "email").getStr, passwordHash := "",
            groupIds := [org.defaultGroupId], isDisabled := false, apiKey := "" }
        match commit with
        | .integrityError msg =>
          if containsSub "email" msg then
            (.error ⟨400, "Email already taken."⟩, none, [], false)
          else (.error ⟨500, ""⟩, none, [], false)
        | .ok =>
          let ev : Event :=
            { action := "create", timestamp := now, objectId := user.id,
              objectType := "user", updatedFields := [] }
          let inviteUrl := invite_link_for_user user
          (.ok ⟨user.to_dict false, inviteUrl⟩, some user, [ev], !noInvite)

/-- Whether a handler outcome is a success. -/
def resIsOk {ε α : Type} : Except ε α → Bool
  | .ok _ => true
  | .error _ => false

/-! Helper lemmas about the dictionary operations and `update_model`. -/

theorem ne_true_of_false {b : Bool} (h : b = false) : ¬ b = true := by
  simp [h]

theorem lookupKey_nil (k : String) : lookupKey [] k = none := rfl

theorem lookupKey_cons (p : String × Value) (ps : Req) (k : String) :
    lookupKey (p :: ps) k = if p.1 = k then some p.2 else lookupKey ps k := by
  by_cases h : p.1 = k
  · rw [lookupKey, List.find?_cons_of_pos _ (by simp [h]), if_pos h]
    rfl
  · rw [lookupKey, List.find?_cons_of_neg _ (by simp [h]), if_neg h]
    rfl

theorem project_cons_none (req : Req) (a : String) (tl : List String)
    (h : lookupKey req a = none) : project req (a :: tl) = project req tl := by
  simp [project, List.filterMap_cons, h]

theorem project_cons_some (req : Req) (a : String) (tl : List String) (v : Value)
    (h : lookupKey req a = some v) :
    project req (a :: tl) = (a, v) :: project req tl := by
  simp [project, List.filterMap_cons, h]

theorem lookupKey_project (req : Req) (ks : List String) (k : String) :
    lookupKey (project req ks) k = if k ∈ ks then lookupKey req k else none := by
  induction ks with
  | nil => simp [project, lookupKey]
  | cons a tl ih =>
    by_cases hka : k = a
    · subst hka
      cases h : lookupKey req k with
      | none =>
        rw [project_cons_none req k tl h, ih]
        by_cases hmem : k ∈ tl <;> simp [hmem, h]
      | some v =>
        rw [project_cons_some req k tl v h, lookupKey_cons]
        simp [h]
    · cases h : lookupKey req a with
      | none =>
        rw [project_cons_none req a tl h, ih]
        simp [List.mem_cons, hka]
      | some v =>
        rw [project_cons_some req a tl v h, lookupKey_cons, if_neg (Ne.symm hka), ih]
        simp [List.mem_cons, hka]

theorem popKey_cons_eq (p : String × Value) (tl : Req) (k : String)
    (h : p.1 = k) : popKey (p :: tl) k = popKey tl k := by
  simp [popKey, List.filter_cons, h]

theorem popKey_cons_ne (p : String × Value) (tl : Req) (k : String)
    (h : ¬ p.1 = k) : popKey (p :: tl) k = p :: popKey tl k := by
  simp [popKey, List.filter_cons, h]

theorem lookupKey_popKey (ps : Req) (k j : String) :
    lookupKey (popKey ps k) j = if j = k then none else lookupKey ps j := by
  induction ps with
  | nil => by_cases h : j = k <;> simp [popKey, lookupKey, h]
  | cons p tl ih =>
    by_cases hpk : p.1 = k
    · rw [popKey_cons_eq p tl k hpk, ih, lookupKey_cons]
      by_cases hjk : j = k
      · simp [hjk]
      · have hpj : ¬ p.1 = j := fun h => hjk (h ▸ hpk)
        simp [hjk, hpj]
    · rw [popKey_cons_ne p tl k hpk, lookupKey_cons, ih, lookupKey_cons]
      by_cases hpj : p.1 = j
      · have hjk : ¬ j = k := fun h => hpk (hpj.trans h)
        simp [hpj, hjk]
      · simp [hpj]

theorem hasKey_popKey (ps : Req) (k j : String) :
    hasKey (popKey ps k) j = if j = k then false else hasKey ps j := by
  by_cases h : j = k <;> simp [hasKey, lookupKey_popKey, h]

theorem not_mem_popKey_fst (ps : Req) (k : String) :
    k ∉ (popKey ps k).map (fun p => p.1) := by
  intro hmem
  rcases List.mem_map.mp hmem with ⟨p, hp, hfst⟩
  have := List.of_mem_filter hp
  rw [hfst] at this
  simp at this

theorem mem_fst_of_hasKey (ps : Req) (k : String) (h : hasKey ps k = true) :
    k ∈ ps.map (fun p => p.1) := by
  unfold hasKey lookupKey at h
  cases hf : List.find? (fun p => p.1 == k) ps with
  | none => rw [hf] at h; simp at h
  | some p =>
    have hmem := List.mem_of_find?_eq_some hf
    have hpred := List.find?_some hf
    have : p.1 = k := by simpa using hpred
    exact this ▸ List.mem_map.mpr ⟨p, hmem, rfl⟩

theorem applyField_passwordHash (u : User) (kv : String × Value) :
    (applyField u kv).passwordHash = u.passwordHash := by
  unfold applyField
  by_cases h1 : kv.1 == "name" <;> by_cases h2 : kv.1 == "email" <;>
    by_cases h3 : kv.1 == "groups" <;> simp [h1, h2, h3]

theorem update_model_passwordHash (ps : Req) (u : User) :
    (update_model u ps).passwordHash = u.passwordHash := by
  induction ps generalizing u with
  | nil => rfl
  | cons p tl ih =>
    unfold update_model at ih ⊢
    rw [List.foldl_cons, ih, applyField_passwordHash]

theorem update_model_append_groups (u : User) (l : Req) (v : Value) :
    (update_model u (l ++ [("groups", v)])).groupIds = v.getNums := by
  unfold update_model
  rw [List.foldl_append]
  simp [applyField]

theorem to_dict_apiKey_isSome (u : User) (b : Bool) :
    ((u.to_dict b).apiKey).isSome = b := by
  cases b <;> simp [User.to_dict]

theorem project_updateKeys_email (req : Req) :
    lookupKey (project req updateKeys) "email" = lookupKey req "email" := by
  rw [lookupKey_project, if_pos (by simp [updateKeys])]

theorem project_updateKeys_name (req : Req) :
    lookupKey (project req updateKeys) "name" = lookupKey req "name" := by
  rw [lookupKey_project, if_pos (by simp [updateKeys])]

theorem project_updateKeys_password (req : Req) :
    lookupKey (project req updateKeys) "password" = lookupKey req "password" := by
  rw [lookupKey_project, if_pos (by simp [updateKeys])]

theorem project_updateKeys_old (req : Req) :
    lookupKey (project req updateKeys) "old_password" = lookupKey req "old_password" := by
  rw [lookupKey_project, if_pos (by simp [updateKeys])]

theorem project_updateKeys_groups (req : Req) :
    lookupKey (project req updateKeys) "groups" = lookupKey req "groups" := by
  rw [lookupKey_project, if_pos (by simp [updateKeys])]

/-! Characterizations of `updateChecks` on the request shapes the claims
speak about. -/

theorem updateChecks_missing_old (hasher : Hasher) (actor : Actor) (user : User)
    (req : Req) (pw : Value)
    (hpw : lookupKey req "password" = some pw)
    (hold : lookupKey req "old_password" = none) :
    updateChecks hasher actor user req =
      .error ⟨403, "Must provide current password to update password."⟩ := by
  unfold updateChecks
  simp [hasKey, project_updateKeys_password, project_updateKeys_old, hpw, hold]

theorem updateChecks_bad_old (hasher : Hasher) (actor : Actor) (user : User)
    (req : Req) (old : Value)
    (hold : lookupKey req "old_password" = some old)
    (hver : hasher.verify old.getStr user.passwordHash = false) :
    updateChecks hasher actor user req =
      .error ⟨403, "Incorrect current password."⟩ := by
  unfold updateChecks
  simp [hasKey, getVal, project_updateKeys_password, project_updateKeys_old, hold, hver]

theorem updateChecks_password_ok (hasher : Hasher) (actor : Actor) (user : User)
    (req : Req) (pw old : Value)
    (hpw : lookupKey req "password" = some pw)
    (hold : lookupKey req "old_password" = some old)
    (hver : hasher.verify old.getStr user.passwordHash = true)
    (hgroups : hasKey req "groups" = true → actor.isAdmin = true) :
    updateChecks hasher actor user req =
      .ok ({ user with passwordHash := hasher.hash pw.getStr },
           popKey (popKey (project req updateKeys) "password") "old_password") := by
  have c1 : (hasKey (project req updateKeys) "password" &&
      !(hasKey (project req updateKeys) "old_password")) = false := by
    simp [hasKey, project_updateKeys_old, hold]
  have c2 : (hasKey (project req updateKeys) "old_password" &&
      !(hasher.verify (getVal (project req updateKeys) "old_password").getStr
        user.passwordHash)) = false := by
    simp [hasKey, getVal, project_updateKeys_old, hold, hver]
  have hp : hasKey (project req updateKeys) "password" = true := by
    simp [hasKey, project_updateKeys_password, hpw]
  have hpwv : getVal (project req updateKeys) "password" = pw := by
    simp [getVal, project_updateKeys_password, hpw]
  have c3 : (hasKey (popKey (popKey (project req updateKeys) "password")
      "old_password") "groups" && !actor.isAdmin) = false := by
    rw [hasKey_popKey, if_neg (by simp), hasKey_popKey, if_neg (by simp)]
    cases hgr : hasKey (project req updateKeys) "groups" with
    | false => simp
    | true =>
      have hgr2 : hasKey req "groups" = true := by
        simpa [hasKey, project_updateKeys_groups] using hgr
      simp [hgroups hgr2]
  simp only [updateChecks]
  rw [if_neg (by simp [c1]), if_neg (by simp [c2]), if_pos hp, hpwv,
    if_neg (by simp [c3])]

theorem updateChecks_password_absent (hasher : Hasher) (actor : Actor) (user : User)
    (req : Req)
    (hpw : lookupKey req "password" = none)
    (hver : ∀ old, lookupKey req "old_password" = some old →
      hasher.verify old.getStr user.passwordHash = true)
    (hgroups : hasKey req "groups" = true → actor.isAdmin = true) :
    updateChecks hasher actor user req = .ok (user, project req updateKeys) := by
  have hp : hasKey (project req updateKeys) "password" = false := by
    simp [hasKey, project_updateKeys_password, hpw]
  have c1 : (hasKey (project req updateKeys) "password" &&
      !(hasKey (project req updateKeys) "old_password")) = false := by
    simp [hp]
  have c2 : (hasKey (project req updateKeys) "old_password" &&
      !(hasher.verify (getVal (project req updateKeys) "old_password").getStr
        user.passwordHash)) = false := by
    cases hold : lookupKey req "old_password" with
    | none => simp [hasKey, project_updateKeys_old, hold]
    | some old => simp [hasKey, getVal, project_updateKeys_old, hold, hver old hold]
  have c3 : (hasKey (project req updateKeys) "groups" && !actor.isAdmin) = false := by
    cases hgr : hasKey (project req updateKeys) "groups" with
    | false => simp
    | true =>
      have hgr2 : hasKey req "groups" = true := by
        simpa [hasKey, project_updateKeys_groups] using hgr
      simp [hgroups hgr2]
  simp only [updateChecks]
  rw [if_neg (ne_true_of_false c1), if_neg (ne_true_of_false c2),
    if_neg (ne_true_of_false hp), if_neg (ne_true_of_false c3)]

theorem updateChecks_groups_forbidden (hasher : Hasher) (actor : Actor) (user : User)
    (req : Req)
    (hgr : hasKey req "groups" = true)
    (hadmin : actor.isAdmin = false) :
    ∃ msg, updateChecks hasher actor user req = .error ⟨403, msg⟩ := by
  unfold updateChecks
  by_cases h1 : (hasKey (project req updateKeys) "password" &&
      !(hasKey (project req updateKeys) "old_password")) = true
  · exact ⟨_, by rw [if_pos h1]⟩
  · rw [if_neg h1]
    by_cases h2 : (hasKey (project req updateKeys) "old_password" &&
        !(hasher.verify (getVal (project req updateKeys) "old_password").getStr
          user.passwordHash)) = true
    · exact ⟨_, by rw [if_pos h2]⟩
    · rw [if_neg h2]
      refine ⟨"Must be admin to change groups membership.", ?_⟩
      have hgp : hasKey (project req updateKeys) "groups" = true := by
        simpa [hasKey, project_updateKeys_groups] using hgr
      by_cases hp : hasKey (project req updateKeys) "password" = true
      · rw [if_pos (by
          simp only [hp, if_true]
          rw [hasKey_popKey, if_neg (by simp), hasKey_popKey, if_neg (by simp)]
          simp [hgp, hadmin])]
      · rw [if_pos (by
          simp only [Bool.not_eq_true] at hp
          simp [hp, hgp, hadmin])]

theorem post_of_checks_error (hasher : Hasher) (actor : Actor) (userId : Nat)
    (req : Req) (commit : CommitOutcome) (now : Nat) (st : SessionState) (f : Failure)
    (hAuth : is_admin_or_owner actor userId = true)
    (h : updateChecks hasher actor st.user req = .error f) :
    UserResource.post hasher actor userId req commit now st = (.error f, st) := by
  simp [UserResource.post, hAuth, h]

theorem post_of_checks_ok (hasher : Hasher) (actor : Actor) (userId : Nat)
    (req : Req) (now : Nat) (st : SessionState) (u : User) (ps : Req)
    (hAuth : is_admin_or_owner actor userId = true)
    (h : updateChecks hasher actor st.user req = .ok (u, ps)) :
    UserResource.post hasher actor userId req .ok now st =
      (.ok ((update_model u ps).to_dict (is_admin_or_owner actor userId)),
       ⟨update_model u ps,
        st.events ++ [⟨"edit", now, (update_model u ps).id, "user",
          ps.map (fun p => p.1)⟩]⟩) := by
  simp [UserResource.post, hAuth, h]

/-! The claims. -/

/-- Claim C1: for every update request by an authorized actor, a patch with
`password` but no `old_password` is rejected; a patch whose `old_password`
does not verify against the stored hash is rejected; and when `password` is
present and `old_password` verifies, the persisted password hash becomes the
hash of the new password and `old_password` does not appear in the audit
event's updated-fields list. -/
theorem claim_c1_password_change_rules (hasher : Hasher) (actor : Actor)
    (userId : Nat) (req : Req) (commit : CommitOutcome) (now : Nat)
    (st : SessionState) (hAuth : is_admin_or_owner actor userId = true) :
    (∀ pw, lookupKey req "password" = some pw →
      lookupKey req "old_password" = none →
      (UserResource.post hasher actor userId req commit now st).1 =
        .error ⟨403, "Must provide current password to update password."⟩) ∧
    (∀ old, lookupKey req "old_password" = some old →
      hasher.verify old.getStr st.user.passwordHash = false →
      (UserResource.post hasher actor userId req commit now st).1 =
        .error ⟨403, "Incorrect current password."⟩) ∧
    (∀ pw old, lookupKey req "password" = some pw →
      lookupKey req "old_password" = some old →
      hasher.verify old.getStr st.user.passwordHash = true →
      (hasKey req "groups" = true → actor.isAdmin = true) →
      commit = .ok →
      ∃ d ev, (UserResource.post hasher actor userId req commit now st).1 = .ok d ∧
        (UserResource.post hasher actor userId req commit now st).2.events =
          st.events ++ [ev] ∧
        "old_password" ∉ ev.updatedFields ∧
        ((UserResource.post hasher actor userId req commit now st).2).user.passwordHash =
          hasher.hash pw.getStr) := by
  refine ⟨?_, ?_, ?_⟩
  · intro pw hpw hold
    rw [post_of_checks_error hasher actor userId req commit now st _ hAuth
      (updateChecks_missing_old hasher actor st.user req pw hpw hold)]
  · intro old hold hver
    rw [post_of_checks_error hasher actor userId req commit now st _ hAuth
      (updateChecks_bad_old hasher actor st.user req old hold hver)]
  · intro pw old hpw hold hver hgroups hcommit
    subst hcommit
    have hc := updateChecks_password_ok hasher actor st.user req pw old hpw hold hver hgroups
    have hpost := post_of_checks_ok hasher actor userId req now st _ _ hAuth hc
    refine ⟨(update_model { st.user with passwordHash := hasher.hash pw.getStr }
        (popKey (popKey (project req updateKeys) "password") "old_password")).to_dict
        (is_admin_or_owner actor userId),
      ⟨"edit", now,
        (update_model { st.user with passwordHash := hasher.hash pw.getStr }
          (popKey (popKey (project req updateKeys) "password") "old_password")).id,
        "user",
        (popKey (popKey (project req updateKeys) "password") "old_password").map
          (fun p => p.1)⟩, ?_, ?_, ?_, ?_⟩
    · rw [hpost]
    · rw [hpost]
    · exact not_mem_popKey_fst (popKey (project req updateKeys) "password") "old_password"
    · rw [hpost]
      exact update_model_passwordHash _ _

/-- Witness instantiating Claim C1 at a concrete request: the owner updates
their password with the correct old password and the stored hash becomes the
hash of the new password. -/
theorem claim_c1_witness :
    is_admin_or_owner ⟨2, false, false⟩ 2 = true ∧
    ((UserResource.post ⟨fun s => "h" ++ s, fun p c => c == "h" ++ p⟩
        ⟨2, false, false⟩ 2 [("password", .str "new"), ("old_password", .str "pw")]
        .ok 100 ⟨⟨2, 7, "bob", "bob@x.com", "hpw", [9], false, "KEY"⟩, []⟩).2).user.passwordHash =
      "hnew" := by
  refine ⟨rfl, ?_⟩
  obtain ⟨d, ev, h1, h2, h3, h4⟩ :=
    (claim_c1_password_change_rules ⟨fun s => "h" ++ s, fun p c => c == "h" ++ p⟩
      ⟨2, false, false⟩ 2 [("password", .str "new"), ("old_password", .str "pw")]
      .ok 100 ⟨⟨2, 7, "bob", "bob@x.com", "hpw", [9], false, "KEY"⟩, []⟩ rfl).2.2
      (.str "new") (.str "pw") rfl rfl (by decide)
      (fun h => absurd h (by decide)) rfl
  exact h4.trans (by decide)

/-- Claim C2: an administrator disabling their own account is rejected with
the 400 failure and the session (hence the `is_disabled` flag) is unchanged;
an administrator disabling a different user leaves the target in the
Disabled state. -/
theorem claim_c2_no_self_disable (actor : Actor) (userId : Nat)
    (st : SessionState) (hAdmin : actor.isAdmin = true) :
    (st.user.id = actor.id →
      (UserDisableResource.post actor userId st).1 =
        .error ⟨400, "You cannot disable your own account. Please ask another admin to do this for you."⟩ ∧
      (UserDisableResource.post actor userId st).2 = st) ∧
    (¬ st.user.id = actor.id →
      ((UserDisableResource.post actor userId st).2).user.isDisabled = true) := by
  constructor
  · intro hid
    constructor <;> simp [UserDisableResource.post, hAdmin, hid]
  · intro hid
    simp [UserDisableResource.post, hAdmin, hid, User.disable]

/-- Witness instantiating Claim C2: admin 1 cannot disable their own row,
and disabling user 2 leaves that row disabled. -/
theorem claim_c2_witness :
    (⟨1, true, true⟩ : Actor).isAdmin = true ∧
    (UserDisableResource.post ⟨1, true, true⟩ 1
        ⟨⟨1, 7, "a", "a@x.com", "", [], false, "K"⟩, []⟩).2 =
      ⟨⟨1, 7, "a", "a@x.com", "", [], false, "K"⟩, []⟩ ∧
    ((UserDisableResource.post ⟨1, true, true⟩ 2
        ⟨⟨2, 7, "b", "b@x.com", "", [], false, "K"⟩, []⟩).2).user.isDisabled = true := by
  refine ⟨rfl, ?_, ?_⟩
  · exact ((claim_c2_no_self_disable ⟨1, true, true⟩ 1
      ⟨⟨1, 7, "a", "a@x.com", "", [], false, "K"⟩, []⟩ rfl).1 rfl).2
  · exact (claim_c2_no_self_disable ⟨1, true, true⟩ 2
      ⟨⟨2, 7, "b", "b@x.com", "", [], false, "K"⟩, []⟩ rfl).2 (by decide)

/-- Claim C3: an administrator's reset-password request on a disabled target
fails with the 404 "Not found" failure; on an enabled target it succeeds and
returns the generated reset link. -/
theorem claim_c3_reset_password (actor : Actor) (user : User)
    (hAdmin : actor.isAdmin = true) :
    (user.isDisabled = true →
      UserResetPasswordResource.post actor user = .error ⟨404, "Not found"⟩) ∧
    (user.isDisabled = false →
      UserResetPasswordResource.post actor user =
        .ok ⟨send_password_reset_email user⟩) := by
  constructor <;> intro h <;> simp [UserResetPasswordResource.post, hAdmin, h]

/-- Witness instantiating Claim C3: a disabled target yields 404, an enabled
one yields the reset link. -/
theorem claim_c3_witness :
    (⟨1, true, true⟩ : Actor).isAdmin = true ∧
    UserResetPasswordResource.post ⟨1, true, true⟩
        ⟨2, 7, "b", "b@x.com", "", [], true, "K"⟩ = .error ⟨404, "Not found"⟩ ∧
    UserResetPasswordResource.post ⟨1, true, true⟩
        ⟨2, 7, "b", "b@x.com", "", [], false, "K"⟩ = .ok ⟨"reset/b@x.com"⟩ := by
  refine ⟨rfl, ?_, ?_⟩
  · exact (claim_c3_reset_password ⟨1, true, true⟩
      ⟨2, 7, "b", "b@x.com", "", [], true, "K"⟩ rfl).1 rfl
  · exact ((claim_c3_reset_password ⟨1, true, true⟩
      ⟨2, 7, "b", "b@x.com", "", [], false, "K"⟩ rfl).2 rfl).trans rfl

theorem project_append (req : Req) (l1 l2 : List String) :
    project req (l1 ++ l2) = project req l1 ++ project req l2 := by
  unfold project
  exact List.filterMap_append l1 l2 _

theorem project_updateKeys_decomp (req : Req) (v : Value)
    (hpw : lookupKey req "password" = none)
    (hold : lookupKey req "old_password" = none)
    (hgr : lookupKey req "groups" = some v) :
    project req updateKeys = project req ["email", "name"] ++ [("groups", v)] := by
  have hsplit : updateKeys = ["email", "name"] ++ ["password", "old_password", "groups"] := rfl
  rw [hsplit, project_append]
  rw [project_cons_none req "password" _ hpw, project_cons_none req "old_password" _ hold,
    project_cons_some req "groups" [] v hgr]
  rfl

/-- Claim C6: an update whose patch contains `groups` is rejected with a 403
failure for an actor without the `admin` capability; an admin actor may
change group membership (the request succeeds and the persisted row carries
the requested group ids). -/
theorem claim_c6_groups_admin_gate (hasher : Hasher) (actor : Actor)
    (userId : Nat) (req : Req) (commit : CommitOutcome) (now : Nat)
    (st : SessionState) (hAuth : is_admin_or_owner actor userId = true) :
    (hasKey req "groups" = true → actor.isAdmin = false →
      ∃ msg, (UserResource.post hasher actor userId req commit now st).1 =
        .error ⟨403, msg⟩) ∧
    (∀ g, lookupKey req "groups" = some (.nums g) → actor.isAdmin = true →
      lookupKey req "password" = none → lookupKey req "old_password" = none →
      commit = .ok →
      ∃ d, (UserResource.post hasher actor userId req commit now st).1 = .ok d ∧
        ((UserResource.post hasher actor userId req commit now st).2).user.groupIds = g) := by
  constructor
  · intro hgr hadmin
    obtain ⟨msg, hmsg⟩ := updateChecks_groups_forbidden hasher actor st.user req hgr hadmin
    exact ⟨msg, by
      rw [post_of_checks_error hasher actor userId req commit now st _ hAuth hmsg]⟩
  · intro g hgr hadmin hpw hold hcommit
    subst hcommit
    have hchecks := updateChecks_password_absent hasher actor st.user req hpw
      (fun old ho => by rw [hold] at ho; cases ho) (fun _ => hadmin)
    have hpost := post_of_checks_ok hasher actor userId req now st _ _ hAuth hchecks
    refine ⟨(update_model st.user (project req updateKeys)).to_dict
      (is_admin_or_owner actor userId), ?_, ?_⟩
    · rw [hpost]
    · rw [hpost]
      show (update_model st.user (project req updateKeys)).groupIds = g
      rw [project_updateKeys_decomp req (.nums g) hpw hold hgr,
        update_model_append_groups]
      rfl

/-- Witness instantiating Claim C6: a non-admin owner sending `groups` is
rejected with a 403 failure, and an admin changing groups persists them. -/
theorem claim_c6_witness :
    is_admin_or_owner ⟨2, false, false⟩ 2 = true ∧
    hasKey [(("groups" : String), Value.nums [3])] "groups" = true ∧
    (∃ msg, (UserResource.post ⟨fun s => s, fun _ _ => false⟩ ⟨2, false, false⟩ 2
        [(("groups" : String), Value.nums [3])] .ok 100
        ⟨⟨2, 7, "bob", "bob@x.com", "hpw", [9], false, "KEY"⟩, []⟩).1 =
      .error ⟨403, msg⟩) ∧
    ((UserResource.post ⟨fun s => s, fun _ _ => false⟩ ⟨1, true, true⟩ 2
        [(("groups" : String), Value.nums [3])] .ok 100
        ⟨⟨2, 7, "bob", "bob@x.com", "hpw", [9], false, "KEY"⟩, []⟩).2).user.groupIds = [3] := by
  refine ⟨rfl, rfl, ?_, ?_⟩
  · exact (claim_c6_groups_admin_gate ⟨fun s => s, fun _ _ => false⟩ ⟨2, false, false⟩ 2
      [(("groups" : String), Value.nums [3])] .ok 100
      ⟨⟨2, 7, "bob", "bob@x.com", "hpw", [9], false, "KEY"⟩, []⟩ rfl).1 rfl rfl
  · obtain ⟨d, h1, h2⟩ := (claim_c6_groups_admin_gate ⟨fun s => s, fun _ _ => false⟩
      ⟨1, true, true⟩ 2 [(("groups" : String), Value.nums [3])] .ok 100
      ⟨⟨2, 7, "bob", "bob@x.com", "hpw", [9], false, "KEY"⟩, []⟩ rfl).2 [3] rfl rfl rfl rfl rfl
    exact h2

/-- Claim C7: every successful get-user and update-user response carries the
`api_key` exactly when the caller is an administrator or the target user
themself (`is_admin_or_owner`). -/
theorem claim_c7_api_key_visibility (hasher : Hasher) (actor : Actor)
    (userId : Nat) (user : User) (req : Req) (commit : CommitOutcome)
    (now : Nat) (st : SessionState) :
    (∀ d, UserResource.get actor userId user = .ok d →
      d.apiKey.isSome = is_admin_or_owner actor userId) ∧
    (∀ d, (UserResource.post hasher actor userId req commit now st).1 = .ok d →
      d.apiKey.isSome = is_admin_or_owner actor userId) := by
  constructor
  · intro d h
    cases hperm : permission_or_owner actor userId with
    | false => simp [UserResource.get, hperm] at h
    | true =>
      have h2 : user.to_dict (is_admin_or_owner actor userId) = d := by
        simpa [UserResource.get, hperm] using h
      rw [← h2]
      exact to_dict_apiKey_isSome _ _
  · intro d h
    cases hauth : is_admin_or_owner actor userId with
    | false => simp [UserResource.post, hauth] at h
    | true =>
      cases hc : updateChecks hasher actor st.user req with
      | error f => simp [UserResource.post, hauth, hc] at h
      | ok p =>
        obtain ⟨u, ps⟩ := p
        cases commit with
        | integrityError msg => simp [UserResource.post, hauth, hc] at h
        | ok =>
          rw [post_of_checks_ok hasher actor userId req now st u ps hauth hc] at h
          have h2 : (update_model u ps).to_dict (is_admin_or_owner actor userId) = d := by
            simpa using h
          rw [← h2, to_dict_apiKey_isSome]
          exact hauth

/-- Witness instantiating Claim C7: an actor with `list_users` but neither
admin nor ownership gets a response without the api key; the owner gets it. -/
theorem claim_c7_witness :
    (UserResource.get ⟨3, false, true⟩ 2 ⟨2, 7, "b", "b@x.com", "", [], false, "KEY"⟩ =
      .ok ⟨2, "b", "b@x.com", [], false, none⟩) ∧
    ((⟨2, "b", "b@x.com", [], false, none⟩ : UserDict).apiKey).isSome =
      is_admin_or_owner ⟨3, false, true⟩ 2 ∧
    (UserResource.get ⟨2, false, false⟩ 2 ⟨2, 7, "b", "b@x.com", "", [], false, "KEY"⟩ =
      .ok ⟨2, "b", "b@x.com", [], false, some "KEY"⟩) ∧
    ((⟨2, "b", "b@x.com", [], false, some "KEY"⟩ : UserDict).apiKey).isSome =
      is_admin_or_owner ⟨2, false, false⟩ 2 := by
  refine ⟨rfl, ?_, rfl, ?_⟩
  · exact (claim_c7_api_key_visibility ⟨fun s => s, fun _ _ => false⟩ ⟨3, false, true⟩ 2
      ⟨2, 7, "b", "b@x.com", "", [], false, "KEY"⟩ [] .ok 0
      ⟨⟨2, 7, "b", "b@x.com", "", [], false, "KEY"⟩, []⟩).1 _ rfl
  · exact (claim_c7_api_key_visibility ⟨fun s => s, fun _ _ => false⟩ ⟨2, false, false⟩ 2
      ⟨2, 7, "b", "b@x.com", "", [], false, "KEY"⟩ [] .ok 0
      ⟨⟨2, 7, "b", "b@x.com", "", [], false, "KEY"⟩, []⟩).1 _ rfl

theorem User.enable_of_not_disabled (u : User) (h : u.isDisabled = false) :
    u.enable = u := by
  cases u with
  | mk id orgId nm em ph gi dis ak =>
    simp only [User.enable]
    simp only [User.isDisabled] at h
    rw [h]

/-- Claim C9: an admin enable request always leaves the target in the Active
state; on an already-enabled target it is a no-op success returning the
unchanged record. -/
theorem claim_c9_enable_idempotent (actor : Actor) (userId : Nat)
    (st : SessionState) (hAdmin : actor.isAdmin = true) :
    ((UserDisableResource.delete actor userId st).2).user.isDisabled = false ∧
    (st.user.isDisabled = false →
      (UserDisableResource.delete actor userId st).1 =
        .ok (st.user.to_dict (is_admin_or_owner actor userId)) ∧
      (UserDisableResource.delete actor userId st).2 = st) := by
  have hdel : UserDisableResource.delete actor userId st =
      (.ok ((st.user.enable).to_dict (is_admin_or_owner actor userId)),
       ⟨st.user.enable, st.events⟩) := by
    simp [UserDisableResource.delete, hAdmin]
  constructor
  · rw [hdel]
    rfl
  · intro hen
    rw [hdel, User.enable_of_not_disabled st.user hen]
    exact ⟨rfl, rfl⟩

/-- Witness instantiating Claim C9: enabling an already-enabled user returns
the unchanged record and state. -/
theorem claim_c9_witness :
    (⟨1, true, true⟩ : Actor).isAdmin = true ∧
    (⟨2, 7, "b", "b@x.com", "", [], false, "K"⟩ : User).isDisabled = false ∧
    (UserDisableResource.delete ⟨1, true, true⟩ 2
        ⟨⟨2, 7, "b", "b@x.com", "", [], false, "K"⟩, []⟩).2 =
      ⟨⟨2, 7, "b", "b@x.com", "", [], false, "K"⟩, []⟩ := by
  refine ⟨rfl, rfl, ?_⟩
  exact ((claim_c9_enable_idempotent ⟨1, true, true⟩ 2
    ⟨⟨2, 7, "b", "b@x.com", "", [], false, "K"⟩, []⟩ rfl).2 rfl).2

/-- Claim C10: when the patch contains a verifying `old_password` but no
`password`, the `old_password` entry is not removed: it stays in the params
dictionary handed to the repository update, and its name appears in the
audit event's updated-fields list. -/
theorem claim_c10_old_password_leaks_into_audit (hasher : Hasher) (actor : Actor)
    (userId : Nat) (req : Req) (now : Nat) (st : SessionState)
    (hAuth : is_admin_or_owner actor userId = true) :
    ∀ old, lookupKey req "old_password" = some old →
      lookupKey req "password" = none →
      hasher.verify old.getStr st.user.passwordHash = true →
      (hasKey req "groups" = true → actor.isAdmin = true) →
      updateChecks hasher actor st.user req = .ok (st.user, project req updateKeys) ∧
      hasKey (project req updateKeys) "old_password" = true ∧
      (UserResource.post hasher actor userId req .ok now st).1 =
        .ok ((update_model st.user (project req updateKeys)).to_dict
          (is_admin_or_owner actor userId)) ∧
      (UserResource.post hasher actor userId req .ok now st).2 =
        ⟨update_model st.user (project req updateKeys),
         st.events ++ [⟨"edit", now,
           (update_model st.user (project req updateKeys)).id, "user",
           (project req updateKeys).map (fun p => p.1)⟩]⟩ ∧
      "old_password" ∈ (project req updateKeys).map (fun p => p.1) := by
  intro old hold hpw hver hgroups
  have hchecks := updateChecks_password_absent hasher actor st.user req hpw
    (fun o ho => by
      rw [hold] at ho
      injection ho with ho2
      rw [← ho2]
      exact hver) hgroups
  have hpost := post_of_checks_ok hasher actor userId req now st _ _ hAuth hchecks
  have hmem : hasKey (project req updateKeys) "old_password" = true := by
    simp [hasKey, project_updateKeys_old, hold]
  refine ⟨hchecks, hmem, ?_, ?_, mem_fst_of_hasKey _ _ hmem⟩
  · rw [hpost]
  · rw [hpost]

/-- Witness instantiating Claim C10: a request carrying only a verifying
`old_password` keeps it in the applied patch and in the updated-fields
list. -/
theorem claim_c10_witness :
    is_admin_or_owner ⟨2, false, false⟩ 2 = true ∧
    lookupKey [(("old_password" : String), Value.str "pw")] "old_password" =
      some (.str "pw") ∧
    "old_password" ∈
      (project [(("old_password" : String), Value.str "pw")] updateKeys).map
        (fun p => p.1) := by
  refine ⟨rfl, rfl, ?_⟩
  exact (claim_c10_old_password_leaks_into_audit
    ⟨fun s => "h" ++ s, fun p c => c == "h" ++ p⟩ ⟨2, false, false⟩ 2
    [(("old_password" : String), Value.str "pw")] 100
    ⟨⟨2, 7, "bob", "bob@x.com", "hpw", [9], false, "KEY"⟩, []⟩ rfl
    (.str "pw") rfl rfl (by decide) (fun h => absurd h (by decide))).2.2.2.2

/-- Claim C8: every rejected operation (update, disable, enable, create)
returns the session state unchanged: the persisted user row is untouched and
no audit event is recorded. The get and reset-password handlers neither
commit nor record events on any path. -/
theorem claim_c8_rejection_no_side_effects :
    (∀ (hasher : Hasher) (actor : Actor) (userId : Nat) (req : Req)
        (commit : CommitOutcome) (now : Nat) (st : SessionState) (e : Failure),
      (UserResource.post hasher actor userId req commit now st).1 = .error e →
      (UserResource.post hasher actor userId req commit now st).2 = st) ∧
    (∀ (actor : Actor) (userId : Nat) (st : SessionState) (e : Failure),
      (UserDisableResource.post actor userId st).1 = .error e →
      (UserDisableResource.post actor userId st).2 = st) ∧
    (∀ (actor : Actor) (userId : Nat) (st : SessionState) (e : Failure),
      (UserDisableResource.delete actor userId st).1 = .error e →
      (UserDisableResource.delete actor userId st).2 = st) ∧
    (∀ (blacklist : List String) (actor : Actor) (req : Req) (noInvite : Bool)
        (commit : CommitOutcome) (org : Org) (newId : Nat) (now : Nat) (e : Failure),
      (UserListResource.post blacklist actor req noInvite commit org newId now).1 =
        .error e →
      (UserListResource.post blacklist actor req noInvite commit org newId now).2 =
        (none, [], false)) := by
  refine ⟨?_, ?_, ?_, ?_⟩
  · intro hasher actor userId req commit now st e h
    cases hauth : is_admin_or_owner actor userId with
    | false => simp [UserResource.post, hauth]
    | true =>
      cases hc : updateChecks hasher actor st.user req with
      | error f => simp [UserResource.post, hauth, hc]
      | ok p =>
        obtain ⟨u, ps⟩ := p
        cases commit with
        | integrityError msg => simp [UserResource.post, hauth, hc]
        | ok =>
          rw [post_of_checks_ok hasher actor userId req now st u ps hauth hc] at h
          exact absurd h (by simp)
  · intro actor userId st e h
    cases hadm : actor.isAdmin with
    | false => simp [UserDisableResource.post, hadm]
    | true =>
      cases hid : (st.user.id == actor.id) with
      | true => simp [UserDisableResource.post, hadm, hid]
      | false => simp [UserDisableResource.post, hadm, hid] at h
  · intro actor userId st e h
    cases hadm : actor.isAdmin with
    | false => simp [UserDisableResource.delete, hadm]
    | true => simp [UserDisableResource.delete, hadm] at h
  · intro blacklist actor req noInvite commit org newId now e h
    cases hadm : actor.isAdmin with
    | false => simp [UserListResource.post, hadm]
    | true =>
      cases hreq : (hasKey req "name" && hasKey req "email") with
      | false => simp [UserListResource.post, hadm, hreq]
      | true =>
        cases hsplit : splitOnce '@' (getVal req "email").getStr.data with
        | none => simp [UserListResource.post, hadm, hreq, hsplit]
        | some p =>
          obtain ⟨loc, dom⟩ := p
          by_cases hbl : (lowerStr ⟨dom⟩ ∈ blacklist ∨ lowerStr ⟨dom⟩ = "qq.com")
          · rcases hbl with hb | hb <;>
              simp [UserListResource.post, hadm, hreq, hsplit, hb]
          · push_neg at hbl
            cases commit with
            | integrityError msg =>
              cases hm : containsSub "email" msg with
              | true =>
                simp [UserListResource.post, hadm, hreq, hsplit, hbl.1, hbl.2, hm]
              | false =>
                simp [UserListResource.post, hadm, hreq, hsplit, hbl.1, hbl.2, hm]
            | ok =>
              simp [UserListResource.post, hadm, hreq, hsplit, hbl.1, hbl.2] at h

/-- Witness instantiating Claim C8 on all four rejected operations: an
unauthorized update, a self-disable, a non-admin enable, and a create with a
denylisted domain each leave the state unchanged. -/
theorem claim_c8_witness :
    ((UserResource.post ⟨fun s => s, fun _ _ => false⟩ ⟨3, false, false⟩ 2 [] .ok 0
        ⟨⟨2, 7, "b", "b@x.com", "", [], false, "K"⟩, []⟩).1 =
      .error ⟨403, "Unauthorized"⟩ ∧
    (UserResource.post ⟨fun s => s, fun _ _ => false⟩ ⟨3, false, false⟩ 2 [] .ok 0
        ⟨⟨2, 7, "b", "b@x.com", "", [], false, "K"⟩, []⟩).2 =
      ⟨⟨2, 7, "b", "b@x.com", "", [], false, "K"⟩, []⟩) ∧
    ((UserDisableResource.post ⟨1, true, true⟩ 1
        ⟨⟨1, 7, "a", "a@x.com", "", [], false, "K"⟩, []⟩).2 =
      ⟨⟨1, 7, "a", "a@x.com", "", [], false, "K"⟩, []⟩) ∧
    ((UserDisableResource.delete ⟨3, false, false⟩ 2
        ⟨⟨2, 7, "b", "b@x.com", "", [], false, "K"⟩, []⟩).2 =
      ⟨⟨2, 7, "b", "b@x.com", "", [], false, "K"⟩, []⟩) ∧
    ((UserListResource.post ["mailinator.com"] ⟨1, true, true⟩
        [("name", .str "n"), ("email", .str "a@mailinator.com")]
        false .ok ⟨7, 5⟩ 42 100).2 = (none, [], false)) := by
  refine ⟨⟨rfl, ?_⟩, ?_, ?_, ?_⟩
  · exact claim_c8_rejection_no_side_effects.1 ⟨fun s => s, fun _ _ => false⟩
      ⟨3, false, false⟩ 2 [] .ok 0 ⟨⟨2, 7, "b", "b@x.com", "", [], false, "K"⟩, []⟩
      ⟨403, "Unauthorized"⟩ rfl
  · exact claim_c8_rejection_no_side_effects.2.1 ⟨1, true, true⟩ 1
      ⟨⟨1, 7, "a", "a@x.com", "", [], false, "K"⟩, []⟩
      ⟨400, "You cannot disable your own account. Please ask another admin to do this for you."⟩ rfl
  · exact claim_c8_rejection_no_side_effects.2.2.1 ⟨3, false, false⟩ 2
      ⟨⟨2, 7, "b", "b@x.com", "", [], false, "K"⟩, []⟩ ⟨403, "Unauthorized"⟩ rfl
  · exact claim_c8_rejection_no_side_effects.2.2.2 ["mailinator.com"] ⟨1, true, true⟩
      [("name", .str "n"), ("email", .str "a@mailinator.com")] false .ok ⟨7, 5⟩ 42 100
      ⟨400, "Bad email address."⟩ rfl

/-- Counterexample to Claim C4 as stated: the email
`x@y@mailinator.com` does not have exactly one `@`, yet the create request
succeeds and a user is persisted — `split('@', 1)` only separates at the
first `@`, so the string checked against the denylist is
`y@mailinator.com`, which matches nothing. -/
theorem claim_c4_counterexample :
    resIsOk (UserListResource.post ["mailinator.com"] ⟨1, true, true⟩
        [("name", .str "n"), ("email", .str "x@y@mailinator.com")]
        false .ok ⟨7, 5⟩ 42 100).1 = true ∧
    (UserListResource.post ["mailinator.com"] ⟨1, true, true⟩
        [("name", .str "n"), ("email", .str "x@y@mailinator.com")]
        false .ok ⟨7, 5⟩ 42 100).2.1 =
      some ⟨42, 7, "n", "x@y@mailinator.com", "", [5], false, ""⟩ :=
  ⟨rfl, rfl⟩

/-- Claim C4 as amended: an email with no `@` makes the create request fail
with an internal 500 error (an uncaught unpacking `ValueError`), not a
validation failure; otherwise the email is split at its first `@` and only
the remainder after that `@`, lowercased, is checked: if it is on the
denylist or equals `qq.com` the request is rejected with the 400 validation
failure. In both failure cases no user is created and no event recorded. -/
theorem claim_c4_email_validation_amended :
    (∀ (blacklist : List String) (actor : Actor) (req : Req) (noInvite : Bool)
        (commit : CommitOutcome) (org : Org) (newId : Nat) (now : Nat) (em : String),
      actor.isAdmin = true → hasKey req "name" = true →
      lookupKey req "email" = some (.str em) →
      splitOnce '@' em.data = none →
      UserListResource.post blacklist actor req noInvite commit org newId now =
        (.error ⟨500, "ValueError"⟩, none, [], false)) ∧
    (∀ (blacklist : List String) (actor : Actor) (req : Req) (noInvite : Bool)
        (commit : CommitOutcome) (org : Org) (newId : Nat) (now : Nat)
        (em : String) (loc dom : List Char),
      actor.isAdmin = true → hasKey req "name" = true →
      lookupKey req "email" = some (.str em) →
      splitOnce '@' em.data = some (loc, dom) →
      (blacklist.contains (lowerStr ⟨dom⟩) || lowerStr ⟨dom⟩ == "qq.com") = true →
      UserListResource.post blacklist actor req noInvite commit org newId now =
        (.error ⟨400, "Bad email address."⟩, none, [], false)) := by
  constructor
  · intro blacklist actor req noInvite commit org newId now em hadm hname hemail hsplit
    simp only [hasKey] at hname
    simp [UserListResource.post, hadm, hasKey, hname, hemail, getVal, Value.getStr,
      hsplit]
  · intro blacklist actor req noInvite commit org newId now em loc dom hadm hname
      hemail hsplit hbl
    simp only [hasKey] at hname
    have hbl2 : lowerStr ⟨dom⟩ ∈ blacklist ∨ lowerStr ⟨dom⟩ = "qq.com" := by
      simpa using hbl
    rcases hbl2 with hb | hb <;>
      simp [UserListResource.post, hadm, hasKey, hname, hemail, getVal, Value.getStr,
        hsplit, hb]

/-- Witness instantiating the amended Claim C4: an email with no `@` gives
the 500 failure; `a@QQ.com` gives the 400 validation failure. -/
theorem claim_c4_witness :
    (UserListResource.post ["mailinator.com"] ⟨1, true, true⟩
        [("name", .str "n"), ("email", .str "noatsign")] false .ok ⟨7, 5⟩ 42 100 =
      (.error ⟨500, "ValueError"⟩, none, [], false)) ∧
    (UserListResource.post ["mailinator.com"] ⟨1, true, true⟩
        [("name", .str "n"), ("email", .str "a@QQ.com")] false .ok ⟨7, 5⟩ 42 100 =
      (.error ⟨400, "Bad email address."⟩, none, [], false)) := by
  constructor
  · exact claim_c4_email_validation_amended.1 ["mailinator.com"] ⟨1, true, true⟩
      [("name", .str "n"), ("email", .str "noatsign")] false .ok ⟨7, 5⟩ 42 100
      "noatsign" rfl rfl rfl (by decide)
  · exact claim_c4_email_validation_amended.2 ["mailinator.com"] ⟨1, true, true⟩
      [("name", .str "n"), ("email", .str "a@QQ.com")] false .ok ⟨7, 5⟩ 42 100
      "a@QQ.com" "a".data "QQ.com".data rfl rfl rfl (by decide) (by decide)

/-- Claim C5: once validation passes, a commit that signals an integrity
conflict mentioning `email` is surfaced as the user-facing 400 "Email
already taken." failure; any other integrity failure is surfaced as the
bare 500; a successful commit returns the created record (with the invite
link) and persists exactly the requested name, email, the store-assigned id
and the organization's default group. -/
theorem claim_c5_create_conflicts (blacklist : List String) (actor : Actor)
    (req : Req) (noInvite : Bool) (org : Org) (newId : Nat) (now : Nat)
    (em : String) (loc dom : List Char)
    (hadm : actor.isAdmin = true)
    (hname : hasKey req "name" = true)
    (hemail : lookupKey req "email" = some (.str em))
    (hsplit : splitOnce '@' em.data = some (loc, dom))
    (hok : (blacklist.contains (lowerStr ⟨dom⟩) || lowerStr ⟨dom⟩ == "qq.com") = false) :
    (∀ msg, containsSub "email" msg = true →
      (UserListResource.post blacklist actor req noInvite (.integrityError msg)
        org newId now).1 = .error ⟨400, "Email already taken."⟩) ∧
    (∀ msg, containsSub "email" msg = false →
      (UserListResource.post blacklist actor req noInvite (.integrityError msg)
        org newId now).1 = .error ⟨500, ""⟩) ∧
    (∃ u, (UserListResource.post blacklist actor req noInvite .ok org newId now).2.1 =
        some u ∧
      (UserListResource.post blacklist actor req noInvite .ok org newId now).1 =
        .ok ⟨u.to_dict false, invite_link_for_user u⟩ ∧
      u.email = em ∧ u.name = (getVal req "name").getStr ∧
      u.groupIds = [org.defaultGroupId] ∧ u.id = newId) := by
  simp only [hasKey] at hname
  have hnb : lowerStr ⟨dom⟩ ∉ blacklist := by
    intro hmem
    simp [hmem] at hok
  have hnq : ¬ lowerStr ⟨dom⟩ = "qq.com" := by
    intro hq
    simp [hq] at hok
  refine ⟨?_, ?_, ?_⟩
  · intro msg hmsg
    simp [UserListResource.post, hadm, hasKey, hname, hemail, getVal, Value.getStr,
      hsplit, hnb, hnq, hmsg]
  · intro msg hmsg
    simp [UserListResource.post, hadm, hasKey, hname, hemail, getVal, Value.getStr,
      hsplit, hnb, hnq, hmsg]
  · refine ⟨⟨newId, org.id, (getVal req "name").getStr, em, "", [org.defaultGroupId],
      false, ""⟩, ?_, ?_, rfl, rfl, rfl, rfl⟩
    · simp [UserListResource.post, hadm, hasKey, hname, hemail, getVal, Value.getStr,
        hsplit, hnb, hnq]
    · simp [UserListResource.post, hadm, hasKey, hname, hemail, getVal, Value.getStr,
        hsplit, hnb, hnq]

/-- Witness instantiating Claim C5: an integrity error whose driver message
mentions `email` surfaces as "Email already taken.", one that does not
surfaces as the bare 500, and a clean commit returns the created record. -/
theorem claim_c5_witness :
    ((UserListResource.post [] ⟨1, true, true⟩
        [("name", .str "n"), ("email", .str "a@ok.com")] false
        (.integrityError "duplicate key email_key") ⟨7, 5⟩ 42 100).1 =
      .error ⟨400, "Email already taken."⟩) ∧
    ((UserListResource.post [] ⟨1, true, true⟩
        [("name", .str "n"), ("email", .str "a@ok.com")] false
        (.integrityError "deadlock") ⟨7, 5⟩ 42 100).1 = .error ⟨500, ""⟩) ∧
    (∃ u, (UserListResource.post [] ⟨1, true, true⟩
        [("name", .str "n"), ("email", .str "a@ok.com")] false .ok ⟨7, 5⟩ 42 100).2.1 =
        some u ∧ u.email = "a@ok.com" ∧ u.id = 42) := by
  refine ⟨?_, ?_, ?_⟩
  · exact (claim_c5_create_conflicts [] ⟨1, true, true⟩
      [("name", .str "n"), ("email", .str "a@ok.com")] false ⟨7, 5⟩ 42 100
      "a@ok.com" "a".data "ok.com".data rfl rfl rfl (by decide) (by decide)).1
      "duplicate key email_key" (by decide)
  · exact (claim_c5_create_conflicts [] ⟨1, true, true⟩
      [("name", .str "n"), ("email", .str "a@ok.com")] false ⟨7, 5⟩ 42 100
      "a@ok.com" "a".data "ok.com".data rfl rfl rfl (by decide) (by decide)).2.1
      "deadlock" (by decide)
  · obtain ⟨u, h1, h2, h3, h4, h5, h6⟩ := (claim_c5_create_conflicts [] ⟨1, true, true⟩
      [("name", .str "n"), ("email", .str "a@ok.com")] false ⟨7, 5⟩ 42 100
      "a@ok.com" "a".data "ok.com".data rfl rfl rfl (by decide) (by decide)).2.2
    exact ⟨u, h1, h3, h6⟩

end Redash
